import Mathlib

/-!
Verification development for the ClipRack mobile application's URL
classification, de-duplication and storage layer.

The embedding mirrors the TypeScript sources:

* `app/(tabs)/embeds.tsx` — the canonical embeds screen: `parseInstagramUrl`,
  `parseYouTubeUrl`, `parseTikTokUrl`, `createEmbedFromUrl`, the shared-data
  processing effect, `deleteEmbed`, `updateEmbedCategories`, `deleteCategory`,
  `saveDynamicEmbeds`/`loadDynamicEmbeds`, `saveCategories`/`loadCategories`,
  and `loadEmbedsFromStorage`.
* the revision of the embeds screen whose `createEmbedFromUrl` also resolves
  TikTok short links via `resolveTikTokShortUrl` (identical parsing code; its
  TikTok branch falls back to the unresolved short id when resolution fails).
* `app/share-extension.tsx` — `handleSave`, which uses the same parsing
  functions and the same scan-before-append de-duplication.
* `src/embeds/constants.ts` — `STORAGE_KEYS`, `DEFAULT_CATEGORIES`.
* `src/embeds/types.ts` — `EmbedData`, `Category`.

JavaScript `String.prototype.match` with a non-global regex is embedded as a
backtracking matcher (`matchM`) over a small regex AST covering exactly the
constructs those five regex literals use: literal sequences, greedy `+` over a
character class, greedy optional groups, ordered alternation, concatenation and
numbered capture groups.  `jsSearch` scans for the leftmost start index at
which the pattern matches, as `match` does.

JavaScript values with no direct Lean counterpart are modelled by their
observable behaviour in this code base: a possibly-`undefined` string is
`Option String` and its truthiness test is `strTruthy` (`undefined` and `""`
are falsy); the possibly-`undefined` `isShortUrl` boolean is a plain `Bool`
(`undefined` and `false` are indistinguishable in every use site: `if`,
`Boolean(...)` and ternaries); the possibly-`undefined` `categories` array is a
plain list (`undefined` and `[]` are indistinguishable in every use site:
`?.filter(...) || []`, `?.includes(...)`).  `Date.now()` is an explicit `now`
argument, the network is an explicit oracle argument, and the key–value
storage backends (AsyncStorage / MMKV) are explicit `KVStore` values with
`JSON.stringify`/`JSON.parse` as abstract encode/parse functions where their
behaviour does not matter, parse failure (a thrown exception caught by the
surrounding `try`) being `none`.
-/

namespace ClipRack

/-! ## A tiny JavaScript-style regex engine -/

/-- Regex AST: exactly the constructs used by the five regex literals in the
source (literals, greedy `+` over a character class, greedy `?` groups,
ordered alternation, concatenation, numbered capture groups). -/
inductive RE where
  | lit : List Char → RE
  | plus : (Char → Bool) → RE
  | opt : RE → RE
  | alt : RE → RE → RE
  | cat : RE → RE → RE
  | grp : Nat → RE → RE

/-- Captured groups: group number paired with the captured characters,
most recent write first. -/
abbrev Caps := List (Nat × List Char)

/-- Ordered choice on `Option`, with the fallback only forced on failure —
the backtracking combinator of the matcher. -/
def firstSome (a : Option α) (b : Unit → Option α) : Option α :=
  match a with
  | some v => some v
  | none => b ()

/-- Consume a literal character sequence from the front of the input. -/
def dropLit : List Char → List Char → Option (List Char)
  | [], s => some s
  | _ :: _, [] => none
  | c :: cs, d :: s => if c = d then dropLit cs s else none

/-- Greedy backtracking for `+` over a character class: try consuming `n`
characters, then `n - 1`, …, down to `1` (a `+` must consume at least one). -/
def tryDrops (k : List Char → Caps → Option α) (s : List Char) (g : Caps) : Nat → Option α
  | 0 => none
  | n + 1 => firstSome (k (s.drop (n + 1)) g) (fun _ => tryDrops k s g n)

/-- Backtracking matcher in continuation-passing style, anchored at the start
of `s`.  Alternation prefers its left branch, `?` prefers matching, `+` is
greedy; exactly the JavaScript backtracking order for these patterns. -/
def matchM (re : RE) (s : List Char) (g : Caps) (k : List Char → Caps → Option α) : Option α :=
  match re with
  | .lit l =>
    match dropLit l s with
    | some rest => k rest g
    | none => none
  | .plus p => tryDrops k s g (s.takeWhile p).length
  | .opt r => firstSome (matchM r s g k) (fun _ => k s g)
  | .alt a b => firstSome (matchM a s g k) (fun _ => matchM b s g k)
  | .cat a b => matchM a s g (fun s' g' => matchM b s' g' k)
  | .grp n r => matchM r s g (fun s' g' => k s' ((n, s.take (s.length - s'.length)) :: g'))

/-- JavaScript `string.match(re)` for a non-global `re`: try the pattern at
each start index from the left; the leftmost successful match wins. -/
def jsSearch (re : RE) : List Char → Option Caps
  | [] => matchM re [] [] (fun _ g => some g)
  | c :: rest =>
    firstSome (matchM re (c :: rest) [] (fun _ g => some g)) (fun _ => jsSearch re rest)

/-- Look up a capture group by number. -/
def capGet : Caps → Nat → Option (List Char)
  | [], _ => none
  | (m, v) :: rest, n => if m = n then some v else capGet rest n

/-- Capture group as a string (`match[n]`; all groups of the source regexes
participate in every successful match). -/
def capStr (g : Caps) (n : Nat) : String := String.mk ((capGet g n).getD [])

/-! ## The five regex literals of the source -/

/-- Character class `[^\/]`. -/
def notSlash (c : Char) : Bool := !(c == '/')

/-- Character class `[^\/\?]`. -/
def notSlashQm (c : Char) : Bool := !(c == '/' || c == '?')

/-- Character class `[^&\n?#]`. -/
def ytIdChar (c : Char) : Bool := !(c == '&' || c == '\n' || c == '?' || c == '#')

/-- `/(?:https?:\/\/(?:www\.)?instagram\.com(?:\/[^\/]+)?\/(p|reel)\/([^\/\?]+))/` -/
def instagramRegex : RE :=
  .cat (.lit "http".data)
    (.cat (.opt (.lit "s".data))
      (.cat (.lit "://".data)
        (.cat (.opt (.lit "www.".data))
          (.cat (.lit "instagram.com".data)
            (.cat (.opt (.cat (.lit "/".data) (.plus notSlash)))
              (.cat (.lit "/".data)
                (.cat (.grp 1 (.alt (.lit "p".data) (.lit "reel".data)))
                  (.cat (.lit "/".data) (.grp 2 (.plus notSlashQm))))))))))

/-- `/instagram\.com\/([^\/]+)\/(p|reel)\//` (the username probe). -/
def instagramUsernameRegex : RE :=
  .cat (.lit "instagram.com/".data)
    (.cat (.grp 1 (.plus notSlash))
      (.cat (.lit "/".data)
        (.cat (.grp 2 (.alt (.lit "p".data) (.lit "reel".data)))
          (.lit "/".data))))

/-- The non-capturing prefix alternation of the YouTube regex:
`(?:https?:\/\/(?:www\.)?youtube\.com\/(?:watch\?v=|shorts\/)|https?:\/\/youtu\.be\/)`. -/
def ytPre : RE :=
  .alt
    (.cat (.lit "http".data)
      (.cat (.opt (.lit "s".data))
        (.cat (.lit "://".data)
          (.cat (.opt (.lit "www.".data))
            (.cat (.lit "youtube.com/".data)
              (.alt (.lit "watch?v=".data) (.lit "shorts/".data)))))))
    (.cat (.lit "http".data)
      (.cat (.opt (.lit "s".data))
        (.lit "://youtu.be/".data)))

/-- `/(?:https?:\/\/(?:www\.)?youtube\.com\/(?:watch\?v=|shorts\/)|https?:\/\/youtu\.be\/)([^&\n?#]+)/` -/
def youtubeRegex : RE := .cat ytPre (.grp 1 (.plus ytIdChar))

/-- `/(?:https?:\/\/(?:www\.)?tiktok\.com\/@([^\/]+)\/video\/([^\/\?]+))/` -/
def fullTiktokRegex : RE :=
  .cat (.lit "http".data)
    (.cat (.opt (.lit "s".data))
      (.cat (.lit "://".data)
        (.cat (.opt (.lit "www.".data))
          (.cat (.lit "tiktok.com/@".data)
            (.cat (.grp 1 (.plus notSlash))
              (.cat (.lit "/video/".data) (.grp 2 (.plus notSlashQm))))))))

/-- `/(?:https?:\/\/vt\.tiktok\.com\/([^\/\?]+))/` -/
def shortTiktokRegex : RE :=
  .cat (.lit "http".data)
    (.cat (.opt (.lit "s".data))
      (.cat (.lit "://vt.tiktok.com/".data) (.grp 1 (.plus notSlashQm))))

/-! ## Data model (`src/embeds/types.ts`) -/

inductive Platform where
  | youtube
  | tiktok
  | instagram
deriving DecidableEq

structure EmbedData where
  id : String
  type : Platform
  title : String
  subtitle : String
  url : String
  videoId : Option String := none
  username : Option String := none
  postId : Option String := none
  isShortUrl : Bool := false
  createdAt : Nat
  categories : List String := []
deriving DecidableEq

structure Category where
  id : String
  name : String
  color : String
  createdAt : Nat
deriving DecidableEq

/-- JavaScript truthiness of a `string | undefined` value
(`undefined` and `""` are falsy). -/
def strTruthy : Option String → Bool
  | some s => s != ""
  | none => false

/-- Scan for an occurrence of `needle` at any position. -/
def includesAux (needle : List Char) : List Char → Bool
  | [] => (dropLit needle []).isSome
  | c :: rest => (dropLit needle (c :: rest)).isSome || includesAux needle rest

/-- JavaScript `haystack.includes(needle)`. -/
def jsIncludes (haystack needle : String) : Bool := includesAux needle.data haystack.data

/-! ## URL classifier (`parseInstagramUrl`, `parseYouTubeUrl`, `parseTikTokUrl`) -/

/-- Result of `parseInstagramUrl`; `contentType` holds `match[1]`
(`"p"` or `"reel"`), exactly as the source keeps the raw capture. -/
structure InstagramParse where
  postId : String
  username : Option String
  contentType : String
deriving DecidableEq

structure YouTubeParse where
  videoId : String
deriving DecidableEq

/-- Result of `parseTikTokUrl`; in the full-form branch the source leaves
`isShortUrl` `undefined`, modelled as `false` (observably identical). -/
structure TikTokParse where
  postId : String
  username : Option String
  isShortUrl : Bool
deriving DecidableEq

/-- `parseInstagramUrl` from `app/(tabs)/embeds.tsx`: match the Instagram
regex; on success `postId := match[2]`, `contentType := match[1]`, and the
username comes from a second probe regex when that one matches. -/
def parseInstagramUrl (url : String) : Option InstagramParse :=
  match jsSearch instagramRegex url.data with
  | some m =>
    some { postId := capStr m 2
           username := (jsSearch instagramUsernameRegex url.data).map (fun um => capStr um 1)
           contentType := capStr m 1 }
  | none => none

/-- `parseYouTubeUrl`: match the YouTube regex; `videoId := match[1]`. -/
def parseYouTubeUrl (url : String) : Option YouTubeParse :=
  (jsSearch youtubeRegex url.data).map (fun m => { videoId := capStr m 1 })

/-- `parseTikTokUrl`: the full-form regex is tried first
(`postId := match[2]`, `username := match[1]`), then the short-form regex
(`postId := shortId`, `isShortUrl := true`). -/
def parseTikTokUrl (url : String) : Option TikTokParse :=
  match jsSearch fullTiktokRegex url.data with
  | some m => some { postId := capStr m 2, username := some (capStr m 1), isShortUrl := false }
  | none =>
    match jsSearch shortTiktokRegex url.data with
    | some m => some { postId := capStr m 1, username := none, isShortUrl := true }
    | none => none

/-! ## TikTok short-link resolver (`resolveTikTokShortUrl`) -/

/-- Response of the redirect-disabled HEAD request: HTTP status and the
`Location` header (absent headers read as `null`). -/
structure HeadResponse where
  status : Nat
  location : Option String
deriving DecidableEq

/-- Outcome of one network call: a value, or a thrown network error. -/
inductive FetchResult (α : Type) where
  | ok : α → FetchResult α
  | netError : FetchResult α
deriving DecidableEq

/-- The network oracle: `headManual url` is `fetch(url, {method: 'HEAD',
redirect: 'manual'})`; `getFollow url` is `fetch(url, {redirect: 'follow'})`
returning the final response URL. -/
structure TikTokNetwork where
  headManual : String → FetchResult HeadResponse
  getFollow : String → FetchResult String

/-- The early-return branch of `resolveTikTokShortUrl`: the value of the
`Location` response header when the status is a redirect (300–399) and the
header value is truthy; in every other case the code falls through to the
redirect-following GET request. -/
def redirectLocation (response : HeadResponse) : Option String :=
  if 300 ≤ response.status ∧ response.status < 400 then
    match response.location with
    | some location => if location = "" then none else some location
    | none => none
  else none

/-- `resolveTikTokShortUrl`: HEAD with redirects disabled; if the status is in
300–399 and a (truthy) `Location` header is present, return it.  Otherwise GET
with redirects followed and return the final URL when it differs from the
input.  Every failure — including a thrown network error, caught by the
surrounding `try` — yields `none`; the function never throws to its caller. -/
def resolveTikTokShortUrl (net : TikTokNetwork) (shortUrl : String) : Option String :=
  match net.headManual shortUrl with
  | .netError => none
  | .ok response =>
    match redirectLocation response with
    | some location => some location
    | none =>
      match net.getFollow shortUrl with
      | .netError => none
      | .ok finalUrl => if finalUrl ≠ shortUrl then some finalUrl else none

/-! ## Embed record builder (`createEmbedFromUrl`) -/

/-- `createEmbedFromUrl` from the revision that resolves TikTok short links
(`resolve` abstracts `resolveTikTokShortUrl` with its network environment;
the embeds-screen and share-extension variants that never resolve are the
special case `resolve := fun _ => none`, under which the TikTok branch keeps
the original URL, short id and `isShortUrl` flag unchanged — exactly their
behaviour).  `now` abstracts `Date.now()`. -/
def createEmbedFromUrl (url : String) (now : Nat) (resolve : String → Option String) :
    Option EmbedData :=
  match parseInstagramUrl url with
  | some instagramData =>
    let contentType := if instagramData.contentType = "reel" then "Reel" else "Post"
    let cleanUrl :=
      if instagramData.contentType = "reel" then
        "https://www.instagram.com/p/" ++ instagramData.postId ++ "/"
      else url
    some { id := "instagram-" ++ instagramData.postId ++ "-" ++ toString now
           type := Platform.instagram
           title := "Instagram " ++ contentType
           subtitle :=
             if strTruthy instagramData.username then "@" ++ instagramData.username.getD ""
             else instagramData.postId
           url := cleanUrl
           postId := some instagramData.postId
           username := instagramData.username
           createdAt := now }
  | none =>
    match parseYouTubeUrl url with
    | some youtubeData =>
      let isShorts := jsIncludes url "/shorts/"
      some { id := "youtube-" ++ youtubeData.videoId ++ "-" ++ toString now
             type := Platform.youtube
             title := if isShorts then "YouTube Short" else "YouTube Video"
             subtitle := "Open " ++ youtubeData.videoId
             url := url
             videoId := some youtubeData.videoId
             createdAt := now }
    | none =>
      match parseTikTokUrl url with
      | some tiktokData =>
        let resolved :=
          if tiktokData.isShortUrl then
            match resolve url with
            | some resolvedUrl =>
              match parseTikTokUrl resolvedUrl with
              | some resolvedData =>
                if resolvedData.isShortUrl then (tiktokData, url) else (resolvedData, resolvedUrl)
              | none => (tiktokData, url)
            | none => (tiktokData, url)
          else (tiktokData, url)
        let finalData := resolved.1
        let finalUrl := resolved.2
        some { id := "tiktok-" ++ finalData.postId ++ "-" ++ toString now
               type := Platform.tiktok
               title := "TikTok Video"
               subtitle :=
                 if strTruthy finalData.username then "@" ++ finalData.username.getD ""
                 else if finalData.isShortUrl then "Short URL" else finalData.postId
               url := finalUrl
               postId := some finalData.postId
               username := finalData.username
               isShortUrl := finalData.isShortUrl
               createdAt := now }
      | none => none

/-! ## Share processing (`processSharedData` in `app/(tabs)/embeds.tsx`;
`handleSave` in `app/share-extension.tsx` runs the same scan-before-append) -/

inductive ShareOutcome where
  | saved
  | alreadyExists
  | failed
deriving DecidableEq

/-- The core of the shared-data effect, after `createEmbedFromUrl` has run:
a failed classification changes nothing; otherwise the collection is scanned
for an existing record with the same URL (`e.url === embed.url`) — if found
the new record is dropped and "already exists" is signalled, else the record
(with the shared category attached) is appended and saved. -/
def processSharedData (dynamicEmbeds : List EmbedData) (embed : Option EmbedData)
    (category : Option String) : List EmbedData × ShareOutcome :=
  match embed with
  | none => (dynamicEmbeds, ShareOutcome.failed)
  | some embed =>
    if dynamicEmbeds.any (fun e => e.url == embed.url) then
      (dynamicEmbeds, ShareOutcome.alreadyExists)
    else
      let embedWithCategory :=
        { embed with
          categories := if strTruthy category then [category.getD ""] else [] }
      (dynamicEmbeds ++ [embedWithCategory], ShareOutcome.saved)

/-! ## Storage (`src/embeds/constants.ts` and the storage functions) -/

/-- A key–value backend (AsyncStorage or one MMKV instance): `getItem` of an
absent key is `null`. -/
abbrev KVStore := String → Option String

/-- `setItem`. -/
def setItem (store : KVStore) (key value : String) : KVStore :=
  fun k => if k = key then some value else store k

structure StorageKeys where
  DYNAMIC_EMBEDS : String
  CATEGORIES : String

/-- `STORAGE_KEYS` from `src/embeds/constants.ts`. -/
def STORAGE_KEYS : StorageKeys :=
  { DYNAMIC_EMBEDS := "cliprack_dynamic_embeds", CATEGORIES := "cliprack_categories" }

/-- `DEFAULT_CATEGORIES` from `src/embeds/constants.ts` (`Date.now()` is the
`now` argument). -/
def DEFAULT_CATEGORIES (now : Nat) : List Category :=
  [ { id := "favorites", name := "Favorites", color := "#FF6B6B", createdAt := now },
    { id := "funny", name := "Funny", color := "#4ECDC4", createdAt := now },
    { id := "educational", name := "Educational", color := "#45B7D1", createdAt := now },
    { id := "music", name := "Music", color := "#96CEB4", createdAt := now },
    { id := "sports", name := "Sports", color := "#FFEAA7", createdAt := now },
    { id := "cooking", name := "Cooking", color := "#DDA0DD", createdAt := now } ]

/-- `saveDynamicEmbeds`: serialize and write under `STORAGE_KEYS.DYNAMIC_EMBEDS`. -/
def saveDynamicEmbeds (store : KVStore) (encode : List EmbedData → String)
    (embeds : List EmbedData) : KVStore :=
  setItem store STORAGE_KEYS.DYNAMIC_EMBEDS (encode embeds)

/-- `saveCategories`: serialize and write under `STORAGE_KEYS.CATEGORIES`. -/
def saveCategories (store : KVStore) (encodeCats : List Category → String)
    (categories : List Category) : KVStore :=
  setItem store STORAGE_KEYS.CATEGORIES (encodeCats categories)

/-- `loadDynamicEmbeds`: `stored ? JSON.parse(stored) : []` inside
`try … catch { return [] }` — an absent key, a falsy (empty) blob, or a blob
`JSON.parse` throws on all yield the empty collection. -/
def loadDynamicEmbeds (store : KVStore) (parse : String → Option (List EmbedData)) :
    List EmbedData :=
  match store STORAGE_KEYS.DYNAMIC_EMBEDS with
  | none => []
  | some stored =>
    if stored = "" then []
    else
      match parse stored with
      | some embeds => embeds
      | none => []

/-- `loadCategories`: `stored ? JSON.parse(stored) : DEFAULT_CATEGORIES`
inside `try … catch { return DEFAULT_CATEGORIES }` — an absent key, a falsy
blob, or an unparsable blob all yield `DEFAULT_CATEGORIES`, not `[]`. -/
def loadCategories (store : KVStore) (parseCats : String → Option (List Category))
    (now : Nat) : List Category :=
  match store STORAGE_KEYS.CATEGORIES with
  | none => DEFAULT_CATEGORIES now
  | some stored =>
    if stored = "" then DEFAULT_CATEGORIES now
    else
      match parseCats stored with
      | some categories => categories
      | none => DEFAULT_CATEGORIES now

/-- `loadEmbedsFromStorage` (the mount-time loader of the embeds screen):
both its MMKV and its AsyncStorage branch read the hard-coded key
`'cliprack_embeds'`, not `STORAGE_KEYS.DYNAMIC_EMBEDS`. -/
def loadEmbedsFromStorage (store : KVStore) (parse : String → Option (List EmbedData)) :
    List EmbedData :=
  match store "cliprack_embeds" with
  | none => []
  | some stored =>
    if stored = "" then []
    else
      match parse stored with
      | some embeds => embeds
      | none => []

/-! ## Mutating screen operations, with their persistence -/

/-- `deleteEmbed`: filter the embed out, then `saveDynamicEmbeds`. -/
def deleteEmbed (dynamicEmbeds : List EmbedData) (store : KVStore)
    (encode : List EmbedData → String) (embedId : String) : List EmbedData × KVStore :=
  let newEmbeds := dynamicEmbeds.filter (fun e => e.id != embedId)
  (newEmbeds, saveDynamicEmbeds store encode newEmbeds)

/-- `updateEmbedCategories`: rewrite one embed's category list, then
`saveDynamicEmbeds`. -/
def updateEmbedCategories (dynamicEmbeds : List EmbedData) (store : KVStore)
    (encode : List EmbedData → String) (embedId : String) (newCategories : List String) :
    List EmbedData × KVStore :=
  let updatedEmbeds := dynamicEmbeds.map (fun embed =>
    if embed.id = embedId then { embed with categories := newCategories } else embed)
  (updatedEmbeds, saveDynamicEmbeds store encode updatedEmbeds)

/-- `deleteCategory`, collection part: strip the category id from every
embed's category set and drop the category from the category list. -/
def deleteCategory (dynamicEmbeds : List EmbedData) (categories : List Category)
    (categoryId : String) : List EmbedData × List Category :=
  (dynamicEmbeds.map (fun embed =>
      { embed with categories := embed.categories.filter (fun id => id != categoryId) }),
   categories.filter (fun cat => cat.id != categoryId))

/-- `deleteCategory` including its two `save*` calls. -/
def deleteCategoryPersist (dynamicEmbeds : List EmbedData) (categories : List Category)
    (store : KVStore) (encode : List EmbedData → String)
    (encodeCats : List Category → String) (categoryId : String) :
    (List EmbedData × List Category) × KVStore :=
  let result := deleteCategory dynamicEmbeds categories categoryId
  (result, saveDynamicEmbeds (saveCategories store encodeCats result.2) encode result.1)

/-- The shared-data effect including its `saveDynamicEmbeds` call (only the
append branch saves). -/
def processSharedDataPersist (dynamicEmbeds : List EmbedData) (store : KVStore)
    (encode : List EmbedData → String) (embed : Option EmbedData) (category : Option String) :
    (List EmbedData × ShareOutcome) × KVStore :=
  let result := processSharedData dynamicEmbeds embed category
  (result, if result.2 = ShareOutcome.saved then saveDynamicEmbeds store encode result.1 else store)

/-! ## Engine lemmas -/

theorem takeWhile_eq_self_of_all (p : Char → Bool) (l : List Char) (h : ∀ c ∈ l, p c = true) :
    l.takeWhile p = l :=
  List.takeWhile_eq_self_iff.mpr h

/-- A capture group wrapping a greedy `+` at the very end of a pattern
captures the whole remaining input when every remaining character is in the
class (the longest try succeeds at once, because the top-level continuation
accepts any match end). -/
theorem matchM_grp_plus_full (n : Nat) (p : Char → Bool) (l : List Char)
    (h1 : l ≠ []) (h2 : ∀ c ∈ l, p c = true) :
    matchM (RE.grp n (RE.plus p)) l [] (fun _ g => some g) = some [(n, l)] := by
  cases l with
  | nil => exact absurd rfl h1
  | cons c cs =>
    have htw : (c :: cs).takeWhile p = c :: cs := takeWhile_eq_self_of_all p _ h2
    simp [matchM, htw, tryDrops, firstSome, List.drop_length]

/-- When the pattern already matches at index 0, the leftmost search returns
that match. -/
theorem jsSearch_of_matchM (re : RE) (s : List Char) (g : Caps)
    (h : matchM re s [] (fun _ g => some g) = some g) (hs : s ≠ []) :
    jsSearch re s = some g := by
  cases s with
  | nil => exact absurd rfl hs
  | cons c rest => simp [jsSearch, h, firstSome]

/-- Symbolic execution of the YouTube prefix alternation over
`https://www.youtube.com/watch?v=` followed by an arbitrary tail: the
`watch?v=` alternative is taken and exactly the prefix is consumed. -/
theorem ytPre_step_watch (r : RE) (l : List Char) (g : Caps) (k : List Char → Caps → Option α) :
    matchM (RE.cat ytPre r) ("https://www.youtube.com/watch?v=".data ++ l) g k
      = matchM r l g k := by
  cases hX : matchM r l g k with
  | none => simp [ytPre, matchM, dropLit, firstSome, hX]
  | some v => simp [ytPre, matchM, dropLit, firstSome, hX]

/-- Symbolic execution of the YouTube prefix alternation over
`https://www.youtube.com/shorts/` followed by an arbitrary tail. -/
theorem ytPre_step_shorts (r : RE) (l : List Char) (g : Caps) (k : List Char → Caps → Option α) :
    matchM (RE.cat ytPre r) ("https://www.youtube.com/shorts/".data ++ l) g k
      = matchM r l g k := by
  cases hX : matchM r l g k with
  | none => simp [ytPre, matchM, dropLit, firstSome, hX]
  | some v => simp [ytPre, matchM, dropLit, firstSome, hX]

/-- Symbolic execution of the YouTube prefix alternation over
`https://youtu.be/` followed by an arbitrary tail: the first (long-domain)
alternative fails on concrete characters and the short-domain one consumes
exactly the prefix. -/
theorem ytPre_step_be (r : RE) (l : List Char) (g : Caps) (k : List Char → Caps → Option α) :
    matchM (RE.cat ytPre r) ("https://youtu.be/".data ++ l) g k
      = matchM r l g k := by
  cases hX : matchM r l g k with
  | none => simp [ytPre, matchM, dropLit, firstSome, hX]
  | some v => simp [ytPre, matchM, dropLit, firstSome, hX]

/-- Helper for C3: a full YouTube URL built from a prefix whose consumption
is given by a `ytPre` step lemma parses to exactly the appended id. -/
theorem parseYouTubeUrl_of_step (pre : String) (id : String)
    (hstep : ∀ (l : List Char) (g : Caps) (k : List Char → Caps → Option Caps),
      matchM (RE.cat ytPre (RE.grp 1 (RE.plus ytIdChar))) (pre.data ++ l) g k
        = matchM (RE.grp 1 (RE.plus ytIdChar)) l g k)
    (h1 : id ≠ "") (h2 : ∀ c ∈ id.data, ytIdChar c = true) :
    parseYouTubeUrl (pre ++ id) = some { videoId := id } := by
  obtain ⟨l⟩ := id
  have hl : l ≠ [] := fun h => h1 (by rw [h])
  have hcap := matchM_grp_plus_full 1 ytIdChar l hl h2
  have hfull : matchM youtubeRegex (pre.data ++ l) [] (fun _ g => some g) = some [(1, l)] :=
    (hstep l [] _).trans hcap
  have hne : pre.data ++ l ≠ [] := by
    intro hcontra
    exact hl (List.append_eq_nil.mp hcontra).2
  have hsearch := jsSearch_of_matchM youtubeRegex _ _ hfull hne
  simp only [parseYouTubeUrl]
  rw [show ((pre ++ String.mk l : String)).data = pre.data ++ l from rfl, hsearch]
  simp [capStr, capGet]

/-- The TikTok parser marks a result as a short link only via its second
(short-form) branch, which carries no username. -/
theorem parseTikTokUrl_short_username_none (url : String) (d : TikTokParse)
    (h : parseTikTokUrl url = some d) (hs : d.isShortUrl = true) : d.username = none := by
  unfold parseTikTokUrl at h
  cases h1 : jsSearch fullTiktokRegex url.data with
  | some m =>
    rw [h1] at h
    injection h with h
    rw [← h] at hs
    simp at hs
  | none =>
    rw [h1] at h
    cases h2 : jsSearch shortTiktokRegex url.data with
    | some m =>
      rw [h2] at h
      injection h with h
      rw [← h]
    | none =>
      rw [h2] at h
      cases h

/-! ## Claim theorems -/

/-- C3: YouTube id extraction is form-independent — for every nonempty video
id containing none of `&`, newline, `?`, `#`, all three supported URL forms
(`youtube.com/watch?v=<id>`, `youtube.com/shorts/<id>`, `youtu.be/<id>`)
parse to that same id. -/
theorem claim3_youtube_id_form_independent (id : String) (h1 : id ≠ "")
    (h2 : ∀ c ∈ id.data, ytIdChar c = true) :
    parseYouTubeUrl ("https://www.youtube.com/watch?v=" ++ id) = some { videoId := id }
    ∧ parseYouTubeUrl ("https://www.youtube.com/shorts/" ++ id) = some { videoId := id }
    ∧ parseYouTubeUrl ("https://youtu.be/" ++ id) = some { videoId := id } :=
  ⟨parseYouTubeUrl_of_step _ id (fun l g k => ytPre_step_watch _ l g k) h1 h2,
   parseYouTubeUrl_of_step _ id (fun l g k => ytPre_step_shorts _ l g k) h1 h2,
   parseYouTubeUrl_of_step _ id (fun l g k => ytPre_step_be _ l g k) h1 h2⟩

/-- Witness for C3 at the spec's example id: `https://youtu.be/LV3mChwupF8`
classifies as videoId `LV3mChwupF8`. -/
theorem claim3_witness :
    parseYouTubeUrl "https://youtu.be/LV3mChwupF8" = some { videoId := "LV3mChwupF8" } := by
  have h := (claim3_youtube_id_form_independent "LV3mChwupF8" (by decide) (by decide)).2.2
  rw [show ("https://youtu.be/" ++ "LV3mChwupF8" : String) = "https://youtu.be/LV3mChwupF8"
    by decide] at h
  exact h

/-- C2: Instagram reel normalization — whenever the classifier recognizes an
Instagram URL as a reel (`match[1] = "reel"`), the built record's stored URL
is the canonical `https://www.instagram.com/p/<id>/` form and its title is
"Instagram Reel"; for a non-reel (post) match the record keeps the input URL
and the title "Instagram Post", every other field being computed identically
— the content kind influences only the title (and the reel-side URL
rewriting). -/
theorem claim2_instagram_reel_normalization (url : String) (d : InstagramParse)
    (now : Nat) (resolve : String → Option String)
    (h : parseInstagramUrl url = some d) :
    (d.contentType = "reel" →
      createEmbedFromUrl url now resolve = some
        { id := "instagram-" ++ d.postId ++ "-" ++ toString now
          type := Platform.instagram
          title := "Instagram Reel"
          subtitle := if strTruthy d.username then "@" ++ d.username.getD "" else d.postId
          url := "https://www.instagram.com/p/" ++ d.postId ++ "/"
          postId := some d.postId
          username := d.username
          createdAt := now })
    ∧ (d.contentType ≠ "reel" →
      createEmbedFromUrl url now resolve = some
        { id := "instagram-" ++ d.postId ++ "-" ++ toString now
          type := Platform.instagram
          title := "Instagram Post"
          subtitle := if strTruthy d.username then "@" ++ d.username.getD "" else d.postId
          url := url
          postId := some d.postId
          username := d.username
          createdAt := now }) := by
  constructor
  · intro hct
    simp [createEmbedFromUrl, h, hct]
  · intro hct
    simp [createEmbedFromUrl, h, hct]

/-- Witness for C2: a concrete reel share is stored under the canonical
post-style URL with the reel title. -/
theorem claim2_witness :
    createEmbedFromUrl "https://www.instagram.com/reel/ABC123/" 5 (fun _ => none) = some
      { id := "instagram-ABC123-5"
        type := Platform.instagram
        title := "Instagram Reel"
        subtitle := "ABC123"
        url := "https://www.instagram.com/p/ABC123/"
        postId := some "ABC123"
        username := none
        createdAt := 5 } := by
  have h := (claim2_instagram_reel_normalization "https://www.instagram.com/reel/ABC123/"
    { postId := "ABC123", username := none, contentType := "reel" } 5 (fun _ => none)
    (by decide)).1 rfl
  exact h.trans (by decide)

/-- C4: classifier matching order — the platform of the built record is
decided by testing the Instagram parser first, then YouTube, then TikTok,
first match winning, and an input matching none of them yields `none`;
moreover within `parseTikTokUrl` the full-form pattern is tried before the
short-form one, so any input the full-form regex matches is never classified
as a short link. -/
theorem claim4_classifier_matching_order :
    (∀ (url : String) (now : Nat) (resolve : String → Option String),
      (createEmbedFromUrl url now resolve).map (fun e => e.type)
        = if (parseInstagramUrl url).isSome then some Platform.instagram
          else if (parseYouTubeUrl url).isSome then some Platform.youtube
          else if (parseTikTokUrl url).isSome then some Platform.tiktok
          else none)
    ∧ (∀ url : String, (jsSearch fullTiktokRegex url.data).isSome →
        ∃ d, parseTikTokUrl url = some d ∧ d.isShortUrl = false) := by
  constructor
  · intro url now resolve
    cases hi : parseInstagramUrl url with
    | some d => simp [createEmbedFromUrl, hi]
    | none =>
      cases hy : parseYouTubeUrl url with
      | some d => simp [createEmbedFromUrl, hi, hy]
      | none =>
        cases ht : parseTikTokUrl url with
        | some d => simp [createEmbedFromUrl, hi, hy, ht]
        | none => simp [createEmbedFromUrl, hi, hy, ht]
  · intro url hfull
    cases h : jsSearch fullTiktokRegex url.data with
    | some m =>
      exact ⟨{ postId := capStr m 2, username := some (capStr m 1), isShortUrl := false },
        by simp [parseTikTokUrl, h], rfl⟩
    | none => rw [h] at hfull; cases hfull

/-- Witness for C4: an input containing both an Instagram and a YouTube match
classifies as Instagram (first pattern wins), and a concrete full-form TikTok
URL is matched by the full-form branch (not flagged as a short link). -/
theorem claim4_witness :
    (createEmbedFromUrl "https://www.instagram.com/p/A/ https://youtu.be/B" 0 (fun _ => none)).map
        (fun e => e.type) = some Platform.instagram
    ∧ ∃ d, parseTikTokUrl "https://www.tiktok.com/@user/video/123" = some d
        ∧ d.isShortUrl = false :=
  ⟨(claim4_classifier_matching_order.1 "https://www.instagram.com/p/A/ https://youtu.be/B" 0
      (fun _ => none)).trans (by decide),
   claim4_classifier_matching_order.2 "https://www.tiktok.com/@user/video/123" (by decide)⟩

/-- C6: TikTok classification — the spec's example full-form URL classifies
with the expected post id, username and a non-short-link flag; a short-form
`vt.tiktok.com` match is flagged as a short link; and when short-link
resolution fails (`resolve` yields nothing) the record is still created,
keeping the short id as content id and the short-link flag, rather than the
share failing. -/
theorem claim6_tiktok_short_link_degraded :
    (parseTikTokUrl "https://www.tiktok.com/@majasrecipes/video/7498864456584285445"
      = some { postId := "7498864456584285445", username := some "majasrecipes",
               isShortUrl := false })
    ∧ (parseTikTokUrl "https://vt.tiktok.com/ZSabc123/"
      = some { postId := "ZSabc123", username := none, isShortUrl := true })
    ∧ (∀ (url : String) (d : TikTokParse) (now : Nat) (resolve : String → Option String),
        parseInstagramUrl url = none → parseYouTubeUrl url = none →
        parseTikTokUrl url = some d → d.isShortUrl = true → resolve url = none →
        createEmbedFromUrl url now resolve = some
          { id := "tiktok-" ++ d.postId ++ "-" ++ toString now
            type := Platform.tiktok
            title := "TikTok Video"
            subtitle := "Short URL"
            url := url
            postId := some d.postId
            username := none
            isShortUrl := true
            createdAt := now }) := by
  refine ⟨by decide, by decide, ?_⟩
  intro url d now resolve hinsta hyt hparse hshort hresolve
  have huser : d.username = none := parseTikTokUrl_short_username_none url d hparse hshort
  simp [createEmbedFromUrl, hinsta, hyt, hparse, hshort, hresolve, huser, strTruthy]

/-- Witness for C6: a concrete unresolvable short link still produces a
degraded record. -/
theorem claim6_witness :
    createEmbedFromUrl "https://vt.tiktok.com/ZSabc123/" 3 (fun _ => none) = some
      { id := "tiktok-ZSabc123-3"
        type := Platform.tiktok
        title := "TikTok Video"
        subtitle := "Short URL"
        url := "https://vt.tiktok.com/ZSabc123/"
        postId := some "ZSabc123"
        username := none
        isShortUrl := true
        createdAt := 3 } := by
  have h := claim6_tiktok_short_link_degraded.2.2 "https://vt.tiktok.com/ZSabc123/"
    { postId := "ZSabc123", username := none, isShortUrl := true } 3 (fun _ => none)
    (by decide) (by decide) (by decide) rfl rfl
  exact h.trans (by decide)

/-- C9: classification totality and no-op on failure — the classifier is a
total function (absence of a match is the representable `none` outcome, never
an exception, by construction of the embedding), the unrecognized example
input `https://example.com/page` classifies to `none`, and processing a share
of it leaves any embed collection unchanged, signalling failure. -/
theorem claim9_unrecognized_no_record :
    (∀ (now : Nat) (resolve : String → Option String),
      createEmbedFromUrl "https://example.com/page" now resolve = none)
    ∧ (∀ (dynamicEmbeds : List EmbedData) (category : Option String) (now : Nat)
        (resolve : String → Option String),
      processSharedData dynamicEmbeds
          (createEmbedFromUrl "https://example.com/page" now resolve) category
        = (dynamicEmbeds, ShareOutcome.failed)) := by
  have hnone : ∀ (now : Nat) (resolve : String → Option String),
      createEmbedFromUrl "https://example.com/page" now resolve = none := by
    intro now resolve
    have hi : parseInstagramUrl "https://example.com/page" = none := by decide
    have hy : parseYouTubeUrl "https://example.com/page" = none := by decide
    have ht : parseTikTokUrl "https://example.com/page" = none := by decide
    simp [createEmbedFromUrl, hi, hy, ht]
  exact ⟨hnone, fun dynamicEmbeds category now resolve => by
    rw [hnone now resolve]
    rfl⟩

/-- C1: de-duplication by canonical URL — starting from a collection with no
record at a given canonical URL, processing two shares whose built records
carry that same URL leaves exactly one record with it; and in general, when a
record with the new record's URL already exists, the new record is discarded,
"already exists" is signalled, and the collection is returned unchanged. -/
theorem claim1_dedup_by_canonical_url (dynamicEmbeds : List EmbedData) (e1 e2 : EmbedData)
    (c1 c2 : Option String) (hurl : e1.url = e2.url)
    (hfresh : ∀ x ∈ dynamicEmbeds, x.url ≠ e1.url) :
    (((processSharedData (processSharedData dynamicEmbeds (some e1) c1).1 (some e2) c2).1.filter
        (fun x => x.url == e1.url)).length = 1)
    ∧ (∀ (embeds : List EmbedData) (e : EmbedData) (c : Option String),
        (∃ x ∈ embeds, x.url = e.url) →
        processSharedData embeds (some e) c = (embeds, ShareOutcome.alreadyExists)) := by
  have halready : ∀ (embeds : List EmbedData) (e : EmbedData) (c : Option String),
      (∃ x ∈ embeds, x.url = e.url) →
      processSharedData embeds (some e) c = (embeds, ShareOutcome.alreadyExists) := by
    intro embeds e c ⟨x, hx, hxe⟩
    have hany : embeds.any (fun y => y.url == e.url) = true :=
      List.any_eq_true.mpr ⟨x, hx, by simp [hxe]⟩
    simp [processSharedData, hany]
  refine ⟨?_, halready⟩
  have hany1 : dynamicEmbeds.any (fun e => e.url == e1.url) = false := by
    rw [List.any_eq_false]
    intro x hx
    simp [hfresh x hx]
  have hstep1 : processSharedData dynamicEmbeds (some e1) c1
      = (dynamicEmbeds ++
          [{ e1 with categories := if strTruthy c1 then [c1.getD ""] else [] }],
         ShareOutcome.saved) := by
    simp [processSharedData, hany1]
  set e1' : EmbedData := { e1 with categories := if strTruthy c1 then [c1.getD ""] else [] }
    with he1'
  have he1url : e1'.url = e1.url := rfl
  have hstep2 : processSharedData (dynamicEmbeds ++ [e1']) (some e2) c2
      = (dynamicEmbeds ++ [e1'], ShareOutcome.alreadyExists) :=
    halready _ _ _ ⟨e1', by simp, by rw [he1url, hurl]⟩
  rw [hstep1]
  simp only [hstep2]
  rw [List.filter_append]
  have hleft : dynamicEmbeds.filter (fun x => x.url == e1.url) = [] := by
    rw [List.filter_eq_nil_iff]
    intro x hx
    simp [hfresh x hx]
  have hright : [e1'].filter (fun x => x.url == e1.url) = [e1'] := by
    simp [List.filter, he1url]
  rw [hleft, hright]
  rfl

/-- Witness for C1: two concrete shares of the same canonical URL collapse to
one record, and a duplicate share against a non-empty collection is rejected
unchanged. -/
theorem claim1_witness :
    (((processSharedData
        (processSharedData []
          (some { id := "a", type := Platform.youtube, title := "t", subtitle := "s",
                  url := "https://youtu.be/x", createdAt := 0 }) none).1
        (some { id := "b", type := Platform.youtube, title := "t", subtitle := "s",
                url := "https://youtu.be/x", createdAt := 1 }) none).1.filter
        (fun x => x.url == "https://youtu.be/x")).length = 1) := by
  have h := (claim1_dedup_by_canonical_url []
    { id := "a", type := Platform.youtube, title := "t", subtitle := "s",
      url := "https://youtu.be/x", createdAt := 0 }
    { id := "b", type := Platform.youtube, title := "t", subtitle := "s",
      url := "https://youtu.be/x", createdAt := 1 } none none rfl
    (by intro x hx; cases hx)).1
  exact h

/-- C5: the TikTok short-link resolver algorithm — a redirect status
(300–399) with a truthy `Location` header returns that header; otherwise the
redirect-following retry returns the final URL exactly when it differs from
the input; and every remaining path (equal final URL, or a thrown network
error in either request) returns `none`.  The function is total, so it never
throws to its caller. -/
theorem claim5_short_link_resolver (net : TikTokNetwork) (shortUrl : String) :
    (∀ (response : HeadResponse) (location : String),
      net.headManual shortUrl = FetchResult.ok response →
      300 ≤ response.status → response.status < 400 →
      response.location = some location → location ≠ "" →
      resolveTikTokShortUrl net shortUrl = some location)
    ∧ (∀ (response : HeadResponse) (finalUrl : String),
      net.headManual shortUrl = FetchResult.ok response →
      redirectLocation response = none →
      net.getFollow shortUrl = FetchResult.ok finalUrl →
      finalUrl ≠ shortUrl →
      resolveTikTokShortUrl net shortUrl = some finalUrl)
    ∧ (∀ response : HeadResponse,
      net.headManual shortUrl = FetchResult.ok response →
      redirectLocation response = none →
      net.getFollow shortUrl = FetchResult.ok shortUrl →
      resolveTikTokShortUrl net shortUrl = none)
    ∧ (net.headManual shortUrl = FetchResult.netError →
      resolveTikTokShortUrl net shortUrl = none)
    ∧ (∀ response : HeadResponse,
      net.headManual shortUrl = FetchResult.ok response →
      redirectLocation response = none →
      net.getFollow shortUrl = FetchResult.netError →
      resolveTikTokShortUrl net shortUrl = none) := by
  refine ⟨?_, ?_, ?_, ?_, ?_⟩
  · intro response location hhead h3 h4 hloc hne
    have hred : redirectLocation response = some location := by
      simp [redirectLocation, h3, h4, hloc, hne]
    simp [resolveTikTokShortUrl, hhead, hred]
  · intro response finalUrl hhead hred hget hne
    simp [resolveTikTokShortUrl, hhead, hred, hget, hne]
  · intro response hhead hred hget
    simp [resolveTikTokShortUrl, hhead, hred, hget]
  · intro hhead
    simp [resolveTikTokShortUrl, hhead]
  · intro response hhead hred hget
    simp [resolveTikTokShortUrl, hhead, hred, hget]

/-- Witness for C5: concrete networks exercising the header path, the
follow-redirect path, the unresolved path and the thrown-error path. -/
theorem claim5_witness :
    resolveTikTokShortUrl
        { headManual := fun _ => FetchResult.ok { status := 301, location := some "https://t/full" },
          getFollow := fun _ => FetchResult.netError } "https://vt.tiktok.com/x"
      = some "https://t/full"
    ∧ resolveTikTokShortUrl
        { headManual := fun _ => FetchResult.ok { status := 200, location := none },
          getFollow := fun u => FetchResult.ok (u ++ "/final") } "https://vt.tiktok.com/x"
      = some "https://vt.tiktok.com/x/final"
    ∧ resolveTikTokShortUrl
        { headManual := fun _ => FetchResult.ok { status := 200, location := none },
          getFollow := fun u => FetchResult.ok u } "https://vt.tiktok.com/x"
      = none
    ∧ resolveTikTokShortUrl
        { headManual := fun _ => FetchResult.netError,
          getFollow := fun _ => FetchResult.netError } "https://vt.tiktok.com/x"
      = none := by
  refine ⟨?_, ?_, ?_, ?_⟩
  · exact (claim5_short_link_resolver _ _).1 _ "https://t/full" rfl (by decide) (by decide)
      rfl (by decide)
  · exact (claim5_short_link_resolver _ _).2.1 _ "https://vt.tiktok.com/x/final" rfl
      (by decide) rfl (by decide)
  · exact (claim5_short_link_resolver _ _).2.2.1 _ rfl (by decide) rfl
  · exact (claim5_short_link_resolver _ _).2.2.2.1 rfl

/-- C7 counterexample: the claim asserts that the category store's load
returns an empty collection when no stored blob exists, but `loadCategories`
over a store with no blob returns the six built-in `DEFAULT_CATEGORIES`,
which is not the empty collection. -/
theorem claim7_counterexample :
    loadCategories (fun _ => none) (fun _ => none) 0 = DEFAULT_CATEGORIES 0
    ∧ DEFAULT_CATEGORIES 0 ≠ [] := by
  exact ⟨rfl, by decide⟩

/-- C7 (amended): both loads return the previously saved collection when the
blob is present and parses; on an absent or unparsable blob the embed store
load returns the empty collection, while the category store load returns the
built-in default category list (not the empty collection, and never a thrown
error — both functions are total). -/
theorem claim7_load_contract (store : KVStore)
    (parse : String → Option (List EmbedData)) (parseCats : String → Option (List Category))
    (now : Nat) :
    (store STORAGE_KEYS.DYNAMIC_EMBEDS = none → loadDynamicEmbeds store parse = [])
    ∧ (∀ s, store STORAGE_KEYS.DYNAMIC_EMBEDS = some s → s ≠ "" → parse s = none →
        loadDynamicEmbeds store parse = [])
    ∧ (∀ s embeds, store STORAGE_KEYS.DYNAMIC_EMBEDS = some s → s ≠ "" →
        parse s = some embeds → loadDynamicEmbeds store parse = embeds)
    ∧ (store STORAGE_KEYS.CATEGORIES = none →
        loadCategories store parseCats now = DEFAULT_CATEGORIES now)
    ∧ (∀ s, store STORAGE_KEYS.CATEGORIES = some s → s ≠ "" → parseCats s = none →
        loadCategories store parseCats now = DEFAULT_CATEGORIES now)
    ∧ (∀ s categories, store STORAGE_KEYS.CATEGORIES = some s → s ≠ "" →
        parseCats s = some categories → loadCategories store parseCats now = categories) := by
  refine ⟨?_, ?_, ?_, ?_, ?_, ?_⟩
  · intro h; simp [loadDynamicEmbeds, h]
  · intro s h hne hp; simp [loadDynamicEmbeds, h, hne, hp]
  · intro s embeds h hne hp; simp [loadDynamicEmbeds, h, hne, hp]
  · intro h; simp [loadCategories, h]
  · intro s h hne hp; simp [loadCategories, h, hne, hp]
  · intro s categories h hne hp; simp [loadCategories, h, hne, hp]

/-- Witness for C7 (amended): saved blobs round-trip, and absent blobs give
the empty collection (embeds) respectively the defaults (categories). -/
theorem claim7_witness :
    loadDynamicEmbeds (setItem (fun _ => none) STORAGE_KEYS.DYNAMIC_EMBEDS "blob")
        (fun s => if s = "blob" then some [] else none) = []
    ∧ loadDynamicEmbeds (fun _ => none) (fun _ => none) = []
    ∧ loadCategories (fun _ => none) (fun _ => none) 7 = DEFAULT_CATEGORIES 7 := by
  refine ⟨?_, ?_, ?_⟩
  · exact (claim7_load_contract _ _ (fun _ => none) 0).2.2.1 "blob" [] (by decide)
      (by decide) (by decide)
  · exact (claim7_load_contract _ (fun _ => none) (fun _ => none) 0).1 rfl
  · exact (claim7_load_contract (fun _ => none) (fun _ => none) _ 7).2.2.2.1 rfl

/-- C8: category cascade delete — after `deleteCategory`, no remaining embed
references the deleted category id, the category itself is gone from the
category collection, every other category survives, and every embed survives
with its identity and URL intact, its category set merely stripped of the
deleted id. -/
theorem claim8_category_cascade_delete (dynamicEmbeds : List EmbedData)
    (categories : List Category) (categoryId : String) :
    (∀ e ∈ (deleteCategory dynamicEmbeds categories categoryId).1,
      categoryId ∉ e.categories)
    ∧ (∀ c ∈ (deleteCategory dynamicEmbeds categories categoryId).2, c.id ≠ categoryId)
    ∧ (∀ c ∈ categories, c.id ≠ categoryId →
        c ∈ (deleteCategory dynamicEmbeds categories categoryId).2)
    ∧ (∀ e ∈ dynamicEmbeds, ∃ e' ∈ (deleteCategory dynamicEmbeds categories categoryId).1,
        e'.id = e.id ∧ e'.url = e.url
        ∧ e'.categories = e.categories.filter (fun id => id != categoryId)) := by
  refine ⟨?_, ?_, ?_, ?_⟩
  · intro e he
    rw [deleteCategory] at he
    obtain ⟨a, _, rfl⟩ := List.mem_map.mp he
    intro hmem
    have := (List.mem_filter.mp hmem).2
    simp at this
  · intro c hc
    have := (List.mem_filter.mp hc).2
    simpa using this
  · intro c hc hne
    exact List.mem_filter.mpr ⟨hc, by simpa using hne⟩
  · intro e he
    refine ⟨{ e with categories := e.categories.filter (fun id => id != categoryId) },
      List.mem_map.mpr ⟨e, he, rfl⟩, rfl, rfl, rfl⟩

/-- Witness for C8 at a concrete collection: deleting "funny" strips it from
the one embed referencing it and removes it from the category list. -/
theorem claim8_witness :
    ("funny" ∉ (⟨"a", Platform.youtube, "t", "s", "u", none, none, none, false, 0,
        ["music"]⟩ : EmbedData).categories)
    ∧ (⟨"music", "Music", "#96CEB4", 0⟩ : Category)
        ∈ (deleteCategory
            [⟨"a", Platform.youtube, "t", "s", "u", none, none, none, false, 0,
              ["funny", "music"]⟩]
            (DEFAULT_CATEGORIES 0) "funny").2 :=
  ⟨(claim8_category_cascade_delete
      [⟨"a", Platform.youtube, "t", "s", "u", none, none, none, false, 0,
        ["funny", "music"]⟩]
      (DEFAULT_CATEGORIES 0) "funny").1
      ⟨"a", Platform.youtube, "t", "s", "u", none, none, none, false, 0, ["music"]⟩
      (by decide),
   (claim8_category_cascade_delete
      [⟨"a", Platform.youtube, "t", "s", "u", none, none, none, false, 0,
        ["funny", "music"]⟩]
      (DEFAULT_CATEGORIES 0) "funny").2.2.1
      ⟨"music", "Music", "#96CEB4", 0⟩
      (by decide) (by decide)⟩

/-- C10: storage-key asymmetry — every mutating operation of the embeds
screen persists the embed collection only through `saveDynamicEmbeds`, i.e.
under `'cliprack_dynamic_embeds'`, leaving the `'cliprack_embeds'` blob that
`loadEmbedsFromStorage` reads at mount untouched; consequently the mount-time
load after a mutation returns the old blob's contents, not the mutated
collection — concretely, appending a shared record to an empty store and then
loading yields `[]`, not the one-record collection just saved. -/
theorem claim10_storage_key_asymmetry :
    (∀ (dynamicEmbeds : List EmbedData) (store : KVStore)
        (encode : List EmbedData → String) (embedId : String),
      (deleteEmbed dynamicEmbeds store encode embedId).2 "cliprack_embeds"
        = store "cliprack_embeds")
    ∧ (∀ (dynamicEmbeds : List EmbedData) (store : KVStore)
        (encode : List EmbedData → String) (embedId : String) (newCategories : List String),
      (updateEmbedCategories dynamicEmbeds store encode embedId newCategories).2
          "cliprack_embeds"
        = store "cliprack_embeds")
    ∧ (∀ (dynamicEmbeds : List EmbedData) (categories : List Category) (store : KVStore)
        (encode : List EmbedData → String) (encodeCats : List Category → String)
        (categoryId : String),
      (deleteCategoryPersist dynamicEmbeds categories store encode encodeCats categoryId).2
          "cliprack_embeds"
        = store "cliprack_embeds")
    ∧ (∀ (dynamicEmbeds : List EmbedData) (store : KVStore)
        (encode : List EmbedData → String) (embed : Option EmbedData)
        (category : Option String),
      (processSharedDataPersist dynamicEmbeds store encode embed category).2 "cliprack_embeds"
        = store "cliprack_embeds")
    ∧ (∀ (dynamicEmbeds : List EmbedData) (store : KVStore)
        (encode : List EmbedData → String) (parse : String → Option (List EmbedData))
        (embed : Option EmbedData) (category : Option String),
      loadEmbedsFromStorage
          (processSharedDataPersist dynamicEmbeds store encode embed category).2 parse
        = loadEmbedsFromStorage store parse)
    ∧ (∀ (encode : List EmbedData → String) (parse : String → Option (List EmbedData))
        (e : EmbedData) (category : Option String),
      loadEmbedsFromStorage
          (processSharedDataPersist [] (fun _ => none) encode (some e) category).2 parse = []
      ∧ (processSharedDataPersist [] (fun _ => none) encode (some e) category).1.1 ≠ []) := by
  have hkeys : ("cliprack_embeds" = STORAGE_KEYS.DYNAMIC_EMBEDS) = False := by
    simp [STORAGE_KEYS]
  have hkeyc : ("cliprack_embeds" = STORAGE_KEYS.CATEGORIES) = False := by
    simp [STORAGE_KEYS]
  have hproc : ∀ (dynamicEmbeds : List EmbedData) (store : KVStore)
      (encode : List EmbedData → String) (embed : Option EmbedData)
      (category : Option String),
      (processSharedDataPersist dynamicEmbeds store encode embed category).2 "cliprack_embeds"
        = store "cliprack_embeds" := by
    intro dynamicEmbeds store encode embed category
    rw [processSharedDataPersist]
    by_cases h : (processSharedData dynamicEmbeds embed category).2 = ShareOutcome.saved
    · simp [h, saveDynamicEmbeds, setItem, hkeys]
    · simp [if_neg h]
  refine ⟨?_, ?_, ?_, hproc, ?_, ?_⟩
  · intro dynamicEmbeds store encode embedId
    simp [deleteEmbed, saveDynamicEmbeds, setItem, hkeys]
  · intro dynamicEmbeds store encode embedId newCategories
    simp [updateEmbedCategories, saveDynamicEmbeds, setItem, hkeys]
  · intro dynamicEmbeds categories store encode encodeCats categoryId
    simp [deleteCategoryPersist, saveDynamicEmbeds, saveCategories, setItem, hkeys, hkeyc]
  · intro dynamicEmbeds store encode parse embed category
    simp only [loadEmbedsFromStorage]
    rw [hproc]
  · intro encode parse e category
    constructor
    · simp only [loadEmbedsFromStorage]
      rw [hproc]
    · rw [processSharedDataPersist]
      simp [processSharedData]

end ClipRack
